import Mathlib

/-!
Verification development for `timestamp_app_noshell.py` (JPG3_Stamper).

The program batch-stamps JPEG photographs with a date/time overlay and
optionally assembles them into an MP4 via ffmpeg.  This file gives a shallow
embedding of its core logic: timestamp resolution (`get_timestamp`), the
serial per-file stamping loop (`process_next_jpg` / `PillowWorker` /
`on_file_processed`), overlay placement (`add_timestamp_with_pillow`), video
assembly (`create_video` / `VideoWorker.create_video_with_ffmpeg`), source
file selection (`stamp_jpgs`) and stamped-image deletion
(`delete_stamped_images`).

Modelling conventions:
* File-system and EXIF reads are passed in as explicit data (a `FileEntry`
  records what the reads would return for one file).
* `datetime.datetime` values are modelled by the `DateTime` structure;
  `datetime.datetime.fromtimestamp` (a local-time conversion of a float
  mtime) is an explicit function parameter `fromTimestamp : Int → DateTime`,
  with the float modelled as an integer.
* `datetime.datetime.strptime` for the two fixed formats used by the
  program is modelled faithfully after CPython's `_strptime` implementation
  (per-directive regexes, whole-string consumption, and the `datetime`
  constructor's range validation).
* Exception *texts* interpolated into log messages are abstracted to the
  strings carried by the model input; the shape of each log line follows the
  source.
-/

namespace JPG3

/-- A `datetime.datetime` value as far as this program observes it
(year, month, day, hour, minute, second; microseconds are never used). -/
structure DateTime where
  year : Nat
  month : Nat
  day : Nat
  hour : Nat
  minute : Nat
  second : Nat
deriving DecidableEq, Repr

/-- The code points CPython's `re` treats as `\s` in a `str` pattern
(`Py_UNICODE_ISSPACE`: Unicode bidirectional classes WS, B and S and
category Zs). -/
def isPyWs (c : Char) : Bool :=
  let n := c.toNat
  (9 ≤ n && n ≤ 13) || (28 ≤ n && n ≤ 32) || n == 0x85 || n == 0xA0 ||
  n == 0x1680 || (0x2000 ≤ n && n ≤ 0x200A) || n == 0x2028 || n == 0x2029 ||
  n == 0x202F || n == 0x205F || n == 0x3000

/-- The digit-zero code point of every run of Unicode decimal digits
(category Nd) in the Unicode 14.0 database CPython 3.11 bundles; every Nd
run is exactly the ten consecutive code points digit-0 … digit-9.  `\d` in
a `str` pattern matches exactly these characters (`Py_UNICODE_ISDECIMAL`),
and `int()` maps each to its value within its run.  The ASCII run comes
first so the common case is found immediately. -/
def ndDigitZeros : List Nat :=
  [0x30, 0x660, 0x6F0, 0x7C0, 0x966, 0x9E6, 0xA66, 0xAE6, 0xB66, 0xBE6,
   0xC66, 0xCE6, 0xD66, 0xDE6, 0xE50, 0xED0, 0xF20, 0x1040, 0x1090, 0x17E0,
   0x1810, 0x1946, 0x19D0, 0x1A80, 0x1A90, 0x1B50, 0x1BB0, 0x1C40, 0x1C50,
   0xA620, 0xA8D0, 0xA900, 0xA9D0, 0xA9F0, 0xAA50, 0xABF0, 0xFF10, 0x104A0,
   0x10D30, 0x11066, 0x110F0, 0x11136, 0x111D0, 0x112F0, 0x11450, 0x114D0,
   0x11650, 0x116C0, 0x11730, 0x118E0, 0x11950, 0x11C50, 0x11D50, 0x11DA0,
   0x16A60, 0x16AC0, 0x16B50, 0x1D7CE, 0x1D7D8, 0x1D7E2, 0x1D7EC, 0x1D7F6,
   0x1E140, 0x1E2F0, 0x1E950, 0x1FBF0]

/-- The decimal value of a Unicode decimal digit, `none` for any other
character. -/
def pyDigit? (c : Char) : Option Nat :=
  (ndDigitZeros.find? (fun b => b ≤ c.toNat && c.toNat ≤ b + 9)).map
    (fun b => c.toNat - b)

/-- Python `re`'s `\d` on a `str` pattern. -/
def isPyDigit (c : Char) : Bool := (pyDigit? c).isSome

/-- `int()` of one matched digit character. -/
def pyDigitVal (c : Char) : Nat := (pyDigit? c).getD 0

/-- A literal ASCII character-class range such as `[0-5]` (regex ranges
are code-point ranges, so no non-ASCII digit falls inside them). -/
def inRange (lo hi c : Char) : Bool := lo ≤ c && c ≤ hi

/-- Gregorian leap year, as in Python's `calendar.isleap` /
`datetime` module. -/
def isLeap (y : Nat) : Bool := (y % 4 == 0 && y % 100 != 0) || y % 400 == 0

/-- Number of days in a month, as validated by the `datetime` constructor. -/
def daysInMonth (y m : Nat) : Nat :=
  if m == 2 then (if isLeap y then 29 else 28)
  else if m == 4 || m == 6 || m == 9 || m == 11 then 30
  else 31

/-- The range checks performed by the `datetime.datetime` constructor:
`MINYEAR ≤ year ≤ MAXYEAR`, a real calendar date, and in-range time fields
(seconds 60/61 accepted by `%S`'s regex are rejected here, as in CPython). -/
def datetimeValid (dt : DateTime) : Bool :=
  1 ≤ dt.year && dt.year ≤ 9999 &&
  1 ≤ dt.month && dt.month ≤ 12 &&
  1 ≤ dt.day && dt.day ≤ daysInMonth dt.year dt.month &&
  dt.hour ≤ 23 && dt.minute ≤ 59 && dt.second ≤ 59

/-- Construct a `datetime.datetime` from parsed fields, `none` when the
constructor would raise `ValueError`. -/
def mkValidDatetime (y m d h mi s : Nat) : Option DateTime :=
  let dt : DateTime := ⟨y, m, d, h, mi, s⟩
  if datetimeValid dt then some dt else none

/-- `%m` two-character alternatives, regex `1[0-2]|0[1-9]`. -/
def monthTwo (c1 c2 : Char) : Bool :=
  (c1 == '1' && inRange '0' '2' c2) || (c1 == '0' && inRange '1' '9' c2)

/-- `%m` one-character alternative, regex `[1-9]`. -/
def monthOne (c : Char) : Bool := inRange '1' '9' c

/-- `%d` two-character alternatives, regex `3[01]|[12]\d|0[1-9]` (the
second character of `[12]\d` may be any Unicode decimal digit). -/
def dayTwo (c1 c2 : Char) : Bool :=
  (c1 == '3' && inRange '0' '1' c2) ||
  ((c1 == '1' || c1 == '2') && isPyDigit c2) ||
  (c1 == '0' && inRange '1' '9' c2)

/-- `%d` one-character alternative, regex `[1-9]`. -/
def dayOne (c : Char) : Bool := inRange '1' '9' c

/-- `%H` two-character alternatives, regex `2[0-3]|[0-1]\d`. -/
def hourTwo (c1 c2 : Char) : Bool :=
  (c1 == '2' && inRange '0' '3' c2) || (inRange '0' '1' c1 && isPyDigit c2)

/-- `%H` one-character alternative, regex `\d`. -/
def hourOne (c : Char) : Bool := isPyDigit c

/-- `%M` two-character alternative, regex `[0-5]\d`. -/
def minuteTwo (c1 c2 : Char) : Bool := inRange '0' '5' c1 && isPyDigit c2

/-- `%M` one-character alternative, regex `\d`. -/
def minuteOne (c : Char) : Bool := isPyDigit c

/-- `%S` two-character alternatives, regex `6[0-1]|[0-5]\d`. -/
def secondTwo (c1 c2 : Char) : Bool :=
  (c1 == '6' && inRange '0' '1' c2) || (inRange '0' '5' c1 && isPyDigit c2)

/-- `%S` one-character alternative, regex `\d`. -/
def secondOne (c : Char) : Bool := isPyDigit c

/-- One numeric field of the regex CPython's `_strptime` generates, at a
chosen width: `2` uses the field's two-character alternatives, `1` its
one-character alternative (within one width the alternative order cannot
change the matched text, so a disjunction suffices); the value is `int()`
of the matched text. -/
def fieldMatch (two : Char → Char → Bool) (one : Char → Bool) :
    Nat → List Char → Option (Nat × List Char)
  | 2, c1 :: c2 :: rest =>
    if two c1 c2 then some (pyDigitVal c1 * 10 + pyDigitVal c2, rest) else none
  | 1, c1 :: rest => if one c1 then some (pyDigitVal c1, rest) else none
  | _, _ => none

/-- `%Y`: exactly four decimal digits (regex `\d\d\d\d`), valued by
`int()`. -/
def parseYear4 : List Char → Option (Nat × List Char)
  | c1 :: c2 :: c3 :: c4 :: rest =>
    if isPyDigit c1 && isPyDigit c2 && isPyDigit c3 && isPyDigit c4 then
      some (((pyDigitVal c1 * 10 + pyDigitVal c2) * 10 + pyDigitVal c3) * 10 +
        pyDigitVal c4, rest)
    else none
  | _ => none

/-- A literal character of the format string. -/
def parseLit (c : Char) : List Char → Option (List Char)
  | x :: rest => if x == c then some rest else none
  | [] => none

/-- `\s+`, which CPython's `_strptime` substitutes for any whitespace run
in the format: one or more whitespace characters, consumed greedily.  No
backtracking into a shorter run is needed: the token after it is a digit
class and no character is both whitespace and a decimal digit, so every
non-greedy alternative fails at its next character. -/
def parseWsPlus : List Char → Option (List Char)
  | c :: rest => if isPyWs c then some (rest.dropWhile isPyWs) else none
  | [] => none

/-- Width choices for the five one-or-two-digit fields of either format,
in regex backtracking order: the regex engine explores the leftmost
choice point last, and in every generated field regex the two-digit
alternatives precede the one-digit alternative, so the first successful
match is the first entry of this list that matches. -/
def widthChoices : List (Nat × Nat × Nat × Nat × Nat) :=
  [2, 1].flatMap fun wm => [2, 1].flatMap fun wd => [2, 1].flatMap fun wh =>
  [2, 1].flatMap fun wmi => [2, 1].map fun wss => (wm, wd, wh, wmi, wss)

/-- One width-choice attempt of `_strptime`'s regex for
`'%Y:%m:%d %H:%M:%S'`: the parsed fields and the unconsumed rest. -/
def matchExifWith (w : Nat × Nat × Nat × Nat × Nat) (cs : List Char) :
    Option (DateTime × List Char) :=
  (parseYear4 cs).bind fun yr =>
  (parseLit ':' yr.2).bind fun r1 =>
  (fieldMatch monthTwo monthOne w.1 r1).bind fun mo =>
  (parseLit ':' mo.2).bind fun r2 =>
  (fieldMatch dayTwo dayOne w.2.1 r2).bind fun dy =>
  (parseWsPlus dy.2).bind fun r3 =>
  (fieldMatch hourTwo hourOne w.2.2.1 r3).bind fun hr =>
  (parseLit ':' hr.2).bind fun r4 =>
  (fieldMatch minuteTwo minuteOne w.2.2.2.1 r4).bind fun mi =>
  (parseLit ':' mi.2).bind fun r5 =>
  (fieldMatch secondTwo secondOne w.2.2.2.2 r5).map fun sc =>
  (⟨yr.1, mo.1, dy.1, hr.1, mi.1, sc.1⟩, sc.2)

/-- `datetime.datetime.strptime(s, '%Y:%m:%d %H:%M:%S')`, the EXIF
`DateTimeOriginal` format: the first regex match in backtracking order,
then CPython's two `ValueError` sources — unconverted trailing data, and
out-of-range fields at `datetime` construction. -/
def strptimeExif (s : String) : Option DateTime :=
  match widthChoices.findSome? (fun w => matchExifWith w s.data) with
  | some (dt, rest) =>
    if rest.isEmpty then
      (if datetimeValid dt then some dt else none)
    else none
  | none => none

/-- One width-choice attempt of `_strptime`'s regex for
`'%Y%m%d_%H%M%S'`. -/
def matchCompactWith (w : Nat × Nat × Nat × Nat × Nat) (cs : List Char) :
    Option (DateTime × List Char) :=
  (parseYear4 cs).bind fun yr =>
  (fieldMatch monthTwo monthOne w.1 yr.2).bind fun mo =>
  (fieldMatch dayTwo dayOne w.2.1 mo.2).bind fun dy =>
  (parseLit '_' dy.2).bind fun r1 =>
  (fieldMatch hourTwo hourOne w.2.2.1 r1).bind fun hr =>
  (fieldMatch minuteTwo minuteOne w.2.2.2.1 hr.2).bind fun mi =>
  (fieldMatch secondTwo secondOne w.2.2.2.2 mi.2).map fun sc =>
  (⟨yr.1, mo.1, dy.1, hr.1, mi.1, sc.1⟩, sc.2)

/-- `datetime.datetime.strptime(s, '%Y%m%d_%H%M%S')`, applied by the
program to the text matched by the filename pattern (faithful on every
string all the same). -/
def strptimeCompact (cs : List Char) : Option DateTime :=
  match widthChoices.findSome? (fun w => matchCompactWith w cs) with
  | some (dt, rest) =>
    if rest.isEmpty then
      (if datetimeValid dt then some dt else none)
    else none
  | none => none

/-- Does `cs` begin with eight decimal digits, an underscore, and six
decimal digits?  If so, return those fifteen characters — the text the
`re` pattern `(\d{8})_(\d{6})` matches at this position (`\d` is any
Unicode decimal digit). -/
def matchAt (cs : List Char) : Option (List Char) :=
  let a := cs.take 8
  let b := (cs.drop 8).take 1
  let c := (cs.drop 9).take 6
  if a.length == 8 && a.all isPyDigit && b == ['_'] &&
     c.length == 6 && c.all isPyDigit then
    some (cs.take 15)
  else none

/-- `re.search(r'(\d{8})_(\d{6})', filename)`: the leftmost occurrence of
the pattern, or `none`. -/
def searchPattern : List Char → Option (List Char)
  | [] => none
  | c :: rest =>
    match matchAt (c :: rest) with
    | some m => some m
    | none => searchPattern rest

/-- Outcome of `Image.open(file_path)._getexif()` followed by
`.get(36867)`, as far as `get_timestamp` can observe it.  `readError`
stands for one of the caught exceptions (`AttributeError`, `KeyError`,
`IndexError`) being raised while opening the image or reading its EXIF
dict; `noTag` covers a missing/falsy EXIF dict and a missing or falsy tag
value; `tagValue s` is a truthy string value of tag 36867
(`DateTimeOriginal`). -/
inductive ExifRead where
  | readError (msg : String)
  | noTag
  | tagValue (s : String)
deriving DecidableEq, Repr

/-- What the file system and image reads return for one source file:
`name` is the basename, `mtime` is `os.path.getmtime` (`none` when it
raises `OSError`), `pillowOk` tells whether
`add_timestamp_with_pillow` completes without an exception and
`pillowErr` is the exception text when it does not. -/
structure FileEntry where
  name : String
  exif : ExifRead
  mtime : Option Int
  pillowOk : Bool
  pillowErr : String
deriving DecidableEq, Repr

/-- `TimestampApp.get_timestamp`: resolved timestamp (or `none` = skip)
together with the log lines the call emits, in order.  The EXIF
parse-failure log line's exception text is abstracted to a fixed string. -/
def get_timestamp (fromTimestamp : Int → DateTime) (e : FileEntry) :
    Option DateTime × List String :=
  let fallback : Option DateTime :=
    match (searchPattern e.name.data).bind strptimeCompact with
    | some dt => some dt
    | none => e.mtime.map fromTimestamp
  match e.exif with
  | .readError msg =>
    (fallback, ["Could not read EXIF data for " ++ e.name ++ ": " ++ msg])
  | .noTag => (fallback, [])
  | .tagValue s =>
    if s == "" then (fallback, [])
    else
      match strptimeExif s with
      | some dt => (some dt, [])
      | none =>
        (fallback,
         ["Could not read EXIF data for " ++ e.name ++
          ": time data does not match format"])

example : strptimeExif "2023:01:05 10:20:30" = some ⟨2023, 1, 5, 10, 20, 30⟩ := by decide
example : strptimeExif "2023:01:05  10:20:30" = some ⟨2023, 1, 5, 10, 20, 30⟩ := by decide
example : strptimeExif "2023:01:05\t10:20:30" = some ⟨2023, 1, 5, 10, 20, 30⟩ := by decide
example : strptimeExif "2023:01:0510:20:30" = none := by decide
example : strptimeExif "2023:13:05 10:20:30" = none := by decide
example : strptimeExif "2023:02:30 10:20:30" = none := by decide
example : strptimeExif "2023:2:5 1:2:3" = some ⟨2023, 2, 5, 1, 2, 3⟩ := by decide
example : strptimeExif "0000:01:01 00:00:00" = none := by decide
example : strptimeCompact "20230101_120000".data = some ⟨2023, 1, 1, 12, 0, 0⟩ := by decide
example : strptimeCompact "00000000_000000".data = none := by decide
example : strptimeCompact "٢٠٢٣0101_120000".data = some ⟨2023, 1, 1, 12, 0, 0⟩ := by decide
example : strptimeCompact "٥268603_945".data = some ⟨5268, 6, 3, 9, 4, 5⟩ := by decide
example : searchPattern "IMG_20230101_120000.jpg".data = some "20230101_120000".data := by decide
example : searchPattern "IMG_٢٠٢٣0101_120000.jpg".data = some "٢٠٢٣0101_120000".data := by decide
example : searchPattern "IMG.jpg".data = none := by decide
example : searchPattern "1234567890_123456".data = some "34567890_123456".data := by decide

/-! ## The stamping run

`stamp_jpgs` collects the file list and starts the chain
`process_next_jpg` → `PillowWorker.run` → `on_file_processed` →
`process_next_jpg` → …  Exactly one worker exists at a time and
`process_next_jpg` for index `i + 1` is only reached from
`on_file_processed` of index `i` (or directly, when file `i` is skipped),
so the chain is modelled as a recursion over the remaining file list. -/

/-- One observable step of the stamping run: `began i` when
`process_next_jpg` picks up file `i`, `skipped i` when it advances without
starting a worker, `finishedFile i ok` when `on_file_processed` receives
the worker's result for file `i`. -/
inductive Event where
  | began (i : Nat)
  | skipped (i : Nat)
  | finishedFile (i : Nat) (success : Bool)
deriving DecidableEq, Repr

/-- The file index an event talks about. -/
def traceIndex : Event → Nat
  | .began i => i
  | .skipped i => i
  | .finishedFile i _ => i

/-- Observable outcome of a stamping run: the ordered event trace, the log
lines, and the destination files written. -/
structure RunState where
  trace : List Event
  log : List String
  written : List String
deriving DecidableEq, Repr

/-- The stamping loop from `current_file_index = i` onwards, over the
remaining entries.  Mirrors `process_next_jpg` (timestamp resolution, skip
branch, worker start), `PillowWorker.run` (success/error message) and
`on_file_processed` (log, advance).  A successful worker writes
`stamped_<name>` into the destination folder; a failing one writes
nothing. -/
def runStampFrom (f : Int → DateTime) (i : Nat) : List FileEntry → RunState
  | [] => ⟨[], ["🎉 All images processed successfully!"], []⟩
  | e :: rest =>
    let s := runStampFrom f (i + 1) rest
    match (get_timestamp f e).1 with
    | none =>
      ⟨.began i :: .skipped i :: s.trace,
       (get_timestamp f e).2 ++
         ("Skipping " ++ e.name ++ " - could not determine timestamp.") :: s.log,
       s.written⟩
    | some _ =>
      ⟨.began i :: .finishedFile i e.pillowOk :: s.trace,
       (get_timestamp f e).2 ++
         (if e.pillowOk then "Processed: " ++ e.name
          else "Error processing " ++ e.name ++ ": " ++ e.pillowErr) :: s.log,
       (if e.pillowOk then ["stamped_" ++ e.name] else []) ++ s.written⟩

/-- A whole stamping run over a selected file list. -/
def runStamp (f : Int → DateTime) (files : List FileEntry) : RunState :=
  runStampFrom f 0 files

/-- The log lines one file contributes to the run. -/
def fileLog (f : Int → DateTime) (e : FileEntry) : List String :=
  (get_timestamp f e).2 ++
    [match (get_timestamp f e).1 with
     | none => "Skipping " ++ e.name ++ " - could not determine timestamp."
     | some _ =>
       if e.pillowOk then "Processed: " ++ e.name
       else "Error processing " ++ e.name ++ ": " ++ e.pillowErr]

/-- The destination files one file contributes to the run. -/
def fileWritten (f : Int → DateTime) (e : FileEntry) : List String :=
  match (get_timestamp f e).1 with
  | none => []
  | some _ => if e.pillowOk then ["stamped_" ++ e.name] else []

/-- The event block one file contributes: it is begun, then either skipped
or finished (successfully or not), before anything happens to the next
file. -/
def fileBlock (f : Int → DateTime) (i : Nat) (e : FileEntry) : List Event :=
  match (get_timestamp f e).1 with
  | none => [.began i, .skipped i]
  | some _ => [.began i, .finishedFile i e.pillowOk]

/-- The fully serial trace the spec describes: the per-file event blocks,
one after the other, in file-list order. -/
def specSerialTrace (f : Int → DateTime) (i : Nat) : List FileEntry → List Event
  | [] => []
  | e :: rest => fileBlock f i e ++ specSerialTrace f (i + 1) rest

theorem runStampFrom_trace (f : Int → DateTime) (es : List FileEntry) :
    ∀ i, (runStampFrom f i es).trace = specSerialTrace f i es := by
  induction es with
  | nil => intro i; simp [runStampFrom, specSerialTrace]
  | cons e rest ih =>
    intro i
    simp only [runStampFrom, specSerialTrace, fileBlock]
    cases h : (get_timestamp f e).1 <;> simp [h, ih]

theorem runStampFrom_log (f : Int → DateTime) (es : List FileEntry) :
    ∀ i, (runStampFrom f i es).log =
      es.flatMap (fileLog f) ++ ["🎉 All images processed successfully!"] := by
  induction es with
  | nil => intro i; simp [runStampFrom]
  | cons e rest ih =>
    intro i
    simp only [runStampFrom, List.flatMap_cons, fileLog]
    cases h : (get_timestamp f e).1 <;> simp [h, ih]

theorem runStampFrom_written (f : Int → DateTime) (es : List FileEntry) :
    ∀ i, (runStampFrom f i es).written = es.flatMap (fileWritten f) := by
  induction es with
  | nil => intro i; simp [runStampFrom]
  | cons e rest ih =>
    intro i
    simp only [runStampFrom, List.flatMap_cons, fileWritten]
    cases h : (get_timestamp f e).1 <;> simp [h, ih]

theorem specSerialTrace_map_index (f : Int → DateTime) (es : List FileEntry) :
    ∀ i, (specSerialTrace f i es).map traceIndex =
      (List.range' i es.length).flatMap (fun j => [j, j]) := by
  induction es with
  | nil => intro i; simp [specSerialTrace]
  | cons e rest ih =>
    intro i
    simp only [specSerialTrace, List.length_cons, List.range'_succ,
      List.flatMap_cons, List.map_append, ih, fileBlock]
    cases h : (get_timestamp f e).1 <;> simp [h, traceIndex]

/-! ## Text overlay -/

/-- Zero-pad a number to a minimum width, as Python's `%Y`-style /
`{i:04d}`-style formatting does. -/
def padTo (w n : Nat) : String :=
  ⟨List.replicate (w - (Nat.repr n).length) '0' ++ (Nat.repr n).data⟩

/-- `timestamp_dt.strftime("%Y-%m-%d")`. -/
def fmtDate (dt : DateTime) : String :=
  padTo 4 dt.year ++ "-" ++ padTo 2 dt.month ++ "-" ++ padTo 2 dt.day

/-- `timestamp_dt.strftime("%H:%M:%S")`. -/
def fmtTime (dt : DateTime) : String :=
  padTo 2 dt.hour ++ ":" ++ padTo 2 dt.minute ++ ":" ++ padTo 2 dt.second

/-- Result of `draw.textbbox((0, 0), text, font)`: the font-dependent
bounding box of a rendered text. -/
structure BBox where
  x0 : Int
  y0 : Int
  x1 : Int
  y1 : Int
deriving DecidableEq, Repr

/-- One `draw.text(...)` call: position, text and fill colour. -/
structure DrawOp where
  x : Int
  y : Int
  text : String
  fill : String
deriving DecidableEq, Repr

/-- The inner `get_text_position(text, y_offset)` helper of
`add_timestamp_with_pillow`: `x` is 40px left of the horizontal anchor
minus the text width, `y` is `y_offset` plus 20px above the bottom minus
the text height. -/
def get_text_position (bbox : String → BBox) (position imgHeight : Int)
    (text : String) (yOffset : Int) : Int × Int :=
  let b := bbox text
  let textWidth := b.x1 - b.x0
  let textHeight := b.y1 - b.y0
  (position - textWidth - 40, imgHeight - textHeight - yOffset - 20)

/-- `PillowWorker.add_timestamp_with_pillow`, abstracted to the list of
`draw.text` calls it performs (the font lookup and `img.save` are I/O).
`bbox` stands for `draw.textbbox((0, 0), ·, font)` of the chosen font. -/
def add_timestamp_with_pillow (bbox : String → BBox) (imgHeight : Int)
    (timestamp_dt : DateTime) (font_size position : Int) (dual_stamp : Bool) :
    List DrawOp :=
  let formatted_date := fmtDate timestamp_dt
  let formatted_time := fmtTime timestamp_dt
  if dual_stamp then
    let time_pos := get_text_position bbox position imgHeight formatted_time (font_size + 20)
    let date_pos := get_text_position bbox position imgHeight formatted_date 10
    [⟨time_pos.1, time_pos.2, formatted_time, "white"⟩,
     ⟨date_pos.1, date_pos.2, formatted_date, "white"⟩]
  else
    let date_pos := get_text_position bbox position imgHeight formatted_date 10
    [⟨date_pos.1, date_pos.2, formatted_date, "white"⟩]

/-- `process_next_jpg` wires the worker with `position = img.width`; the
draw calls for one stamped image of width `imgWidth`. -/
def stampDrawOps (bbox : String → BBox) (imgWidth imgHeight : Int)
    (timestamp_dt : DateTime) (font_size : Int) (dual_stamp : Bool) :
    List DrawOp :=
  add_timestamp_with_pillow bbox imgHeight timestamp_dt font_size imgWidth dual_stamp

/-- `TimestampApp.get_font_size`: 3-way preset from the dropdown index
(Qt's `currentIndex` is `-1` when nothing is selected, hence `Int`). -/
def get_font_size (index : Int) : Nat :=
  if index == 0 then 24 else if index == 1 then 48 else 72

/-! ## Source file selection and stamped-image deletion -/

/-- Python `str.lower()` character by character (ASCII case mapping; every
character of the suffixes compared below is ASCII). -/
def lowerChars (cs : List Char) : List Char := cs.map Char.toLower

/-- Python `str.endswith(suffix)` on explicit character lists. -/
def endsWithChars (cs suffix : List Char) : Bool :=
  suffix.length ≤ cs.length && cs.drop (cs.length - suffix.length) == suffix

/-- Python `str.startswith(pre)` on explicit character lists. -/
def startsWithChars (cs pre : List Char) : Bool := pre.isPrefixOf cs

/-- The filter of `stamp_jpgs`:
`f.lower().endswith('.jpg') and not f.startswith('._')`. -/
def isSelectedJpg (f : String) : Bool :=
  endsWithChars (lowerChars f.data) ".jpg".data &&
  !startsWithChars f.data "._".data

/-- What pressing "Stamp JPGs" does before any file is processed. -/
inductive StampStart where
  | missingSourceDir
  | noJpgFiles
  | runStarted (files : List String)
deriving DecidableEq, Repr

/-- `TimestampApp.stamp_jpgs` up to the first `process_next_jpg` call:
reject a missing source directory, build `all_jpg_files` from the
directory listing, show the "No JPG files found." dialog when it is
empty, otherwise start the run on that list. -/
def stamp_jpgs (sourceDirExists : Bool) (listing : List String) : StampStart :=
  if !sourceDirExists then .missingSourceDir
  else
    let files := listing.filter isSelectedJpg
    if files.isEmpty then .noJpgFiles else .runStarted files

/-- The filter of `create_video` and `delete_stamped_images`:
`f.startswith('stamped_') and f.lower().endswith('.jpg')`. -/
def stampedJpgPred (f : String) : Bool :=
  startsWithChars f.data "stamped_".data &&
  endsWithChars (lowerChars f.data) ".jpg".data

/-- Observable outcome of `delete_stamped_images`: the files removed (in
iteration order), the log lines, and the two counters. -/
structure DeleteResult where
  removed : List String
  log : List String
  deletedCount : Nat
  errorCount : Nat
deriving DecidableEq, Repr

/-- The deletion loop body: `removeErr f` is `none` when `os.remove`
succeeds and `some msg` when it raises `OSError` with text `msg`; a
failure is logged and counted and the loop continues. -/
def deleteLoop (removeErr : String → Option String) :
    List String → DeleteResult
  | [] => ⟨[], [], 0, 0⟩
  | f :: rest =>
    let s := deleteLoop removeErr rest
    if stampedJpgPred f then
      match removeErr f with
      | some msg =>
        ⟨s.removed, ("Error deleting " ++ f ++ ": " ++ msg) :: s.log,
         s.deletedCount, s.errorCount + 1⟩
      | none => ⟨f :: s.removed, s.log, s.deletedCount + 1, s.errorCount⟩
    else s

/-- `TimestampApp.delete_stamped_images` after the confirmation dialog:
on "Yes", iterate over the destination listing removing the matching
files; on "No", nothing happens. -/
def delete_stamped_images (confirmYes : Bool) (listing : List String)
    (removeErr : String → Option String) : DeleteResult :=
  if confirmYes then
    let s := deleteLoop removeErr listing
    { s with
      log := "🗑️ Deleting stamped images..." :: s.log ++
        ["✅ Deleted " ++ toString s.deletedCount ++ " files."] ++
        (if s.errorCount > 0 then
          ["❌ Failed to delete " ++ toString s.errorCount ++ " files."]
         else []) }
  else ⟨[], [], 0, 0⟩

example : isSelectedJpg "IMG_001.JPG" = true := by decide
example : isSelectedJpg "._IMG_001.jpg" = false := by decide
example : isSelectedJpg "movie.mp4" = false := by decide
example : stampedJpgPred "stamped_IMG_001.jpg" = true := by decide
example : stampedJpgPred "video_20230101_crf17_fps30.mp4" = false := by decide

/-! ## Video assembly -/

/-- Python's `str` comparison: lexicographic on Unicode code points. -/
def lexLe : List Char → List Char → Bool
  | [], _ => true
  | _ :: _, [] => false
  | a :: as, b :: bs =>
    if a.toNat < b.toNat then true
    else if b.toNat < a.toNat then false
    else lexLe as bs

/-- The string order `sorted` uses. -/
def strLe (s t : String) : Prop := lexLe s.data t.data = true

instance : DecidableRel strLe := fun s t => by
  unfold strLe; infer_instance

theorem lexLe_total (a b : List Char) : lexLe a b = true ∨ lexLe b a = true := by
  induction a generalizing b with
  | nil => left; simp [lexLe]
  | cons x as ih =>
    cases b with
    | nil => right; simp [lexLe]
    | cons y bs =>
      rcases Nat.lt_trichotomy x.toNat y.toNat with h | h | h
      · left; simp [lexLe, h]
      · rcases ih bs with h2 | h2
        · left; simp [lexLe, h, h2]
        · right; simp [lexLe, h.symm, h2]
      · right; simp [lexLe, h]

theorem lexLe_trans (a b c : List Char) (hab : lexLe a b = true)
    (hbc : lexLe b c = true) : lexLe a c = true := by
  induction a generalizing b c with
  | nil => simp [lexLe]
  | cons x as ih =>
    cases b with
    | nil => simp [lexLe] at hab
    | cons y bs =>
      cases c with
      | nil => simp [lexLe] at hbc
      | cons z cs =>
        simp only [lexLe] at hab hbc ⊢
        split at hab
        · rename_i hxy
          split at hbc
          · rename_i hyz; simp [Nat.lt_trans hxy hyz]
          · split at hbc
            · simp at hbc
            · rename_i hzy hyz
              have hzy2 : y.toNat = z.toNat := by omega
              simp [hzy2 ▸ hxy]
        · split at hab
          · simp at hab
          · rename_i hyx hxy
            have hxy2 : x.toNat = y.toNat := by omega
            split at hbc
            · rename_i hyz; simp [hxy2 ▸ hyz]
            · split at hbc
              · simp at hbc
              · rename_i hzy hyz
                have hyz2 : y.toNat = z.toNat := by omega
                have : ¬ x.toNat < z.toNat := by omega
                simp [this, show ¬ z.toNat < x.toNat by omega]
                exact ih bs cs hab hbc

instance : IsTotal String strLe := ⟨fun s t => lexLe_total s.data t.data⟩

instance : IsTrans String strLe := ⟨fun _ _ _ => lexLe_trans _ _ _⟩

/-- Python `sorted` on a list of `str`: a stable sort under `strLe`.
Since `strLe` is a total order that is antisymmetric on the underlying
character data, every sorting algorithm produces the same list; we embed
it as insertion sort, which evaluates in the kernel. -/
def sortedStrings (l : List String) : List String := List.insertionSort strLe l

/-- The CRF dropdown items (`crf_dropdown.addItems`). -/
def crfDropdownItems : List String :=
  ["17 (Excellent Quality, Good Size)",
   "10 (Near-Archival, Large Size)",
   "6 (Extreme Quality, Very Large Size)"]

/-- The FPS dropdown items (`fps_dropdown.addItems`). -/
def fpsDropdownItems : List String := ["15", "30"]

/-- Python `s.split(' ')[0]`: the characters before the first space. -/
def takeUntilSpace : List Char → List Char
  | [] => []
  | c :: rest => if c == ' ' then [] else c :: takeUntilSpace rest

/-- `self.crf_dropdown.currentText().split(' ')[0]`. -/
def crfFromText (s : String) : String := ⟨takeUntilSpace s.data⟩

/-- The exact ffmpeg argument list built by
`VideoWorker.create_video_with_ffmpeg`. -/
def ffmpeg_command (fps tempDir crf outputPath : String) : List String :=
  ["ffmpeg",
   "-framerate", fps,
   "-i", tempDir ++ "/image-%04d.jpg",
   "-c:v", "libx264",
   "-preset", "slow",
   "-crf", crf,
   "-pix_fmt", "yuv420p",
   "-y",
   outputPath]

/-- Observable outcome of one `VideoWorker.create_video_with_ffmpeg` call:
the `shutil.copy` operations (source, destination) in order, the
subprocess invocations, the output path, and the returned
`(success, message)` pair. -/
structure VideoRun where
  copies : List (String × String)
  invocations : List (List String)
  outputFile : String
  success : Bool
  message : String
deriving DecidableEq, Repr

/-- `VideoWorker.create_video_with_ffmpeg`: copy the `i`-th image file to
`image-<i zero-padded to 4>.jpg` in the temporary directory, build the
output name from the wall-clock stamp `nowStamp`, invoke ffmpeg once, and
report its exit.  `tempDir` is the `tempfile.TemporaryDirectory` name,
`returncode`/`stderrText` are what `subprocess.Popen.communicate`
observes. -/
def create_video_with_ffmpeg (imageFolder : String) (imageFiles : List String)
    (crf fps outputDir tempDir nowStamp : String) (returncode : Int)
    (stderrText : String) : VideoRun :=
  let copies := imageFiles.enum.map fun p =>
    (imageFolder ++ "/" ++ p.2, tempDir ++ "/image-" ++ padTo 4 p.1 ++ ".jpg")
  let outputFilename := "video_" ++ nowStamp ++ "_crf" ++ crf ++ "_fps" ++ fps ++ ".mp4"
  let outPath := outputDir ++ "/" ++ outputFilename
  { copies := copies,
    invocations := [ffmpeg_command fps tempDir crf outPath],
    outputFile := outPath,
    success := returncode == 0,
    message :=
      if returncode == 0 then "✅ Video created successfully: " ++ outPath
      else "❌ FFmpeg error:\n" ++ stderrText }

/-- What pressing "Create Video" does before the worker thread runs. -/
inductive VideoStart where
  | missingDestDir
  | noStampedImages
  | workerStarted (imageFolder : String) (imageFiles : List String)
      (crf fps outputDir : String)
deriving DecidableEq, Repr

/-- `TimestampApp.create_video`: reject a missing destination directory,
collect `sorted(...)` of the stamped files in the destination listing,
show an error dialog when there are none, otherwise start one
`VideoWorker` with the CRF/FPS the two dropdowns select. -/
def create_video (destDirExists : Bool) (destDir : String)
    (destListing : List String) (crfIndex fpsIndex : Nat)
    (videoOutputDir : String) : VideoStart :=
  if !destDirExists then .missingDestDir
  else
    let stamped_files := sortedStrings (destListing.filter stampedJpgPred)
    if stamped_files.isEmpty then .noStampedImages
    else
      .workerStarted destDir stamped_files
        (crfFromText (crfDropdownItems.getD crfIndex ""))
        (fpsDropdownItems.getD fpsIndex "") videoOutputDir

/-- `TimestampApp.on_video_finished`: the message is appended to the log
(and only UI state changes besides). -/
def on_video_finished (log : List String) (message : String) : List String :=
  log ++ [message]

example : crfFromText "17 (Excellent Quality, Good Size)" = "17" := by decide
example : sortedStrings ["stamped_b.jpg", "stamped_a.jpg"] =
    ["stamped_a.jpg", "stamped_b.jpg"] := by decide
example : crfFromText "17 (Excellent Quality, Good Size)" = "17" := by decide
example : padTo 4 7 = "0007" := by decide
example : padTo 4 12345 = "12345" := by decide

/-! ## Claims -/

/-- A fixed `datetime.fromtimestamp` stand-in used by concrete witnesses. -/
def dt1970 : DateTime := ⟨1970, 1, 1, 0, 0, 0⟩

/-- A constant local-time conversion, used by concrete witnesses. -/
def constTs : Int → DateTime := fun _ => dt1970

/-- The EXIF branch of `get_timestamp` yields nothing: the read raised a
caught exception, the tag is absent or falsy, or its value does not parse. -/
def exifUnavailable (e : FileEntry) : Prop :=
  match e.exif with
  | .tagValue s => s = "" ∨ strptimeExif s = none
  | _ => True

/-- **C1** (amended): timestamp resolution follows the fixed precedence —
a present, parsing EXIF `DateTimeOriginal` wins; otherwise the *leftmost*
8-digit`_`6-digit occurrence in the filename is taken and, exactly when it
parses as `%Y%m%d_%H%M%S`, its value is returned (later occurrences are
never tried); otherwise a readable modification time is converted;
otherwise no timestamp is produced.  Determinism per input file holds
because `get_timestamp` is a function of the file's data. -/
theorem C1_timestamp_precedence (fromTs : Int → DateTime) (e : FileEntry) :
    (∀ s dt, e.exif = .tagValue s → strptimeExif s = some dt →
      (get_timestamp fromTs e).1 = some dt) ∧
    (exifUnavailable e → ∀ dt,
      (searchPattern e.name.data).bind strptimeCompact = some dt →
      (get_timestamp fromTs e).1 = some dt) ∧
    (exifUnavailable e →
      (searchPattern e.name.data).bind strptimeCompact = none →
      ∀ t, e.mtime = some t → (get_timestamp fromTs e).1 = some (fromTs t)) ∧
    (exifUnavailable e →
      (searchPattern e.name.data).bind strptimeCompact = none →
      e.mtime = none → (get_timestamp fromTs e).1 = none) := by
  refine ⟨?_, ?_, ?_, ?_⟩
  · intro s dt hexif hparse
    by_cases hs : s = ""
    · subst hs
      rw [show strptimeExif "" = none by decide] at hparse
      exact Option.noConfusion hparse
    · simp [get_timestamp, hexif, hs, hparse]
  · intro hmiss dt hsearch
    cases hexif : e.exif with
    | readError msg => simp [get_timestamp, hexif, hsearch]
    | noTag => simp [get_timestamp, hexif, hsearch]
    | tagValue s =>
      rw [exifUnavailable, hexif] at hmiss
      rcases hmiss with hs | hp
      · subst hs; simp [get_timestamp, hexif, hsearch]
      · by_cases hs : s = ""
        · subst hs; simp [get_timestamp, hexif, hsearch]
        · simp [get_timestamp, hexif, hs, hp, hsearch]
  · intro hmiss hsearch t hmt
    cases hexif : e.exif with
    | readError msg => simp [get_timestamp, hexif, hsearch, hmt]
    | noTag => simp [get_timestamp, hexif, hsearch, hmt]
    | tagValue s =>
      rw [exifUnavailable, hexif] at hmiss
      rcases hmiss with hs | hp
      · subst hs; simp [get_timestamp, hexif, hsearch, hmt]
      · by_cases hs : s = ""
        · subst hs; simp [get_timestamp, hexif, hsearch, hmt]
        · simp [get_timestamp, hexif, hs, hp, hsearch, hmt]
  · intro hmiss hsearch hmt
    cases hexif : e.exif with
    | readError msg => simp [get_timestamp, hexif, hsearch, hmt]
    | noTag => simp [get_timestamp, hexif, hsearch, hmt]
    | tagValue s =>
      rw [exifUnavailable, hexif] at hmiss
      rcases hmiss with hs | hp
      · subst hs; simp [get_timestamp, hexif, hsearch, hmt]
      · by_cases hs : s = ""
        · subst hs; simp [get_timestamp, hexif, hsearch, hmt]
        · simp [get_timestamp, hexif, hs, hp, hsearch, hmt]

/-- **C1** witness: a file whose EXIF tag parses resolves to the EXIF
value. -/
theorem C1_witness :
    (get_timestamp constTs
      ⟨"IMG.jpg", .tagValue "2023:01:05 10:20:30", some 0, true, ""⟩).1 =
      some ⟨2023, 1, 5, 10, 20, 30⟩ :=
  (C1_timestamp_precedence constTs
      ⟨"IMG.jpg", .tagValue "2023:01:05 10:20:30", some 0, true, ""⟩).1
    "2023:01:05 10:20:30" ⟨2023, 1, 5, 10, 20, 30⟩ rfl (by decide)

/-- The parsed values of *all* 8-digit`_`6-digit occurrences in a
character string (the claim's "contains a pattern that parses", made
formal). -/
def parseableOccurrences : List Char → List DateTime
  | [] => []
  | c :: rest =>
    (match matchAt (c :: rest) with
     | some m => (strptimeCompact m).toList
     | none => []) ++ parseableOccurrences rest

/-- **C1** counterexample: the filename
`00000000_000000_20230101_120000.jpg` contains exactly one
8-digit`_`6-digit occurrence that parses as `%Y%m%d_%H%M%S` (namely
`20230101_120000`), its EXIF tag is absent and its mtime is readable —
yet `get_timestamp` returns the mtime-derived value, not the parsed
filename value: `re.search` finds only the leftmost occurrence
`00000000_000000`, whose `strptime` raises, and the code then falls
through to the modification time. -/
theorem C1_counterexample :
    parseableOccurrences "00000000_000000_20230101_120000.jpg".data =
      [⟨2023, 1, 1, 12, 0, 0⟩] ∧
    (get_timestamp constTs
      ⟨"00000000_000000_20230101_120000.jpg", .noTag, some 0, true, ""⟩).1 =
      some dt1970 ∧
    some dt1970 ≠ some (⟨2023, 1, 1, 12, 0, 0⟩ : DateTime) := by
  refine ⟨by decide, by decide, by decide⟩

/-- **C2**: a per-file failure — unreadable EXIF, missing timestamp, a
worker exception, or, in the video stage, an encoder non-zero exit — is
logged and the run continues with the remaining work; no file is ever
retried (every index is visited exactly once, in order), and the encoder
is never re-invoked. -/
theorem C2_failures_logged_run_continues :
    (∀ (fromTs : Int → DateTime) (pre : List FileEntry) (e : FileEntry)
        (post : List FileEntry), e.pillowOk = false →
      (get_timestamp fromTs e).1 ≠ none →
      ("Error processing " ++ e.name ++ ": " ++ e.pillowErr) ∈
        (runStamp fromTs (pre ++ e :: post)).log) ∧
    (∀ (fromTs : Int → DateTime) (pre : List FileEntry) (e : FileEntry)
        (post : List FileEntry) (msg : String), e.exif = .readError msg →
      ("Could not read EXIF data for " ++ e.name ++ ": " ++ msg) ∈
        (runStamp fromTs (pre ++ e :: post)).log) ∧
    (∀ (fromTs : Int → DateTime) (pre : List FileEntry) (e : FileEntry)
        (post : List FileEntry), (get_timestamp fromTs e).1 = none →
      ("Skipping " ++ e.name ++ " - could not determine timestamp.") ∈
        (runStamp fromTs (pre ++ e :: post)).log) ∧
    (∀ (fromTs : Int → DateTime) (files : List FileEntry),
      (runStamp fromTs files).trace.map traceIndex =
        (List.range files.length).flatMap (fun j => [j, j])) ∧
    (∀ (imageFolder : String) (imageFiles : List String)
        (crf fps outputDir tempDir nowStamp : String) (rc : Int)
        (st : String) (log : List String), rc ≠ 0 →
      (create_video_with_ffmpeg imageFolder imageFiles crf fps outputDir
          tempDir nowStamp rc st).success = false ∧
      (create_video_with_ffmpeg imageFolder imageFiles crf fps outputDir
          tempDir nowStamp rc st).message = "❌ FFmpeg error:\n" ++ st ∧
      (create_video_with_ffmpeg imageFolder imageFiles crf fps outputDir
          tempDir nowStamp rc st).invocations.length = 1 ∧
      (create_video_with_ffmpeg imageFolder imageFiles crf fps outputDir
          tempDir nowStamp rc st).message ∈
        on_video_finished log
          (create_video_with_ffmpeg imageFolder imageFiles crf fps outputDir
            tempDir nowStamp rc st).message) := by
  refine ⟨?_, ?_, ?_, ?_, ?_⟩
  · intro fromTs pre e post hOk hne
    rw [runStamp, runStampFrom_log]
    apply List.mem_append_left
    apply List.mem_flatMap.mpr
    refine ⟨e, by simp, ?_⟩
    cases h2 : (get_timestamp fromTs e).1 with
    | none => exact absurd h2 hne
    | some dt => simp [fileLog, h2, hOk]
  · intro fromTs pre e post msg hexif
    rw [runStamp, runStampFrom_log]
    apply List.mem_append_left
    apply List.mem_flatMap.mpr
    refine ⟨e, by simp, ?_⟩
    apply List.mem_append_left
    simp [get_timestamp, hexif]
  · intro fromTs pre e post h
    rw [runStamp, runStampFrom_log]
    apply List.mem_append_left
    apply List.mem_flatMap.mpr
    exact ⟨e, by simp, by simp [fileLog, h]⟩
  · intro fromTs files
    rw [runStamp, runStampFrom_trace, specSerialTrace_map_index,
      List.range_eq_range']
  · intro imageFolder imageFiles crf fps outputDir tempDir nowStamp rc st log h
    have hrc : (rc == 0) = false := by simp [h]
    refine ⟨?_, ?_, rfl, ?_⟩
    · simp [create_video_with_ffmpeg, hrc]
    · simp [create_video_with_ffmpeg, hrc]
    · simp [on_video_finished]

/-- **C2** witness: a concrete failing worker's message is in the log. -/
theorem C2_witness :
    ("Error processing " ++ "a.jpg" ++ ": " ++ "boom") ∈
      (runStamp constTs
        ([] ++ ⟨"a.jpg", .tagValue "2023:01:05 10:20:30", some 0, false, "boom"⟩ :: [])).log :=
  C2_failures_logged_run_continues.1 constTs []
    ⟨"a.jpg", .tagValue "2023:01:05 10:20:30", some 0, false, "boom"⟩ []
    rfl (by decide)

/-- **C3**: the overlay renders at most two white lines, each right-aligned
to the horizontal anchor (the image width) with a 40px padding and
offset from the bottom edge by its `y_offset` plus 20px; with dual
stamping on, a time line (y-offset `font_size + 20`) and a date line
(y-offset 10) are drawn, the time line above the date line whenever the
two text heights do not differ by more than `font_size + 10`; with dual
stamping off, only the date line is drawn. -/
theorem C3_overlay_layout (bbox : String → BBox) (imgWidth imgHeight : Int)
    (dt : DateTime) (fontSize : Int) (dual : Bool) :
    (stampDrawOps bbox imgWidth imgHeight dt fontSize dual).length ≤ 2 ∧
    (∀ op ∈ stampDrawOps bbox imgWidth imgHeight dt fontSize dual,
      op.fill = "white" ∧
      op.x = imgWidth - ((bbox op.text).x1 - (bbox op.text).x0) - 40) ∧
    (dual = true →
      stampDrawOps bbox imgWidth imgHeight dt fontSize dual =
        [⟨imgWidth - ((bbox (fmtTime dt)).x1 - (bbox (fmtTime dt)).x0) - 40,
          imgHeight - ((bbox (fmtTime dt)).y1 - (bbox (fmtTime dt)).y0) -
            (fontSize + 20) - 20,
          fmtTime dt, "white"⟩,
         ⟨imgWidth - ((bbox (fmtDate dt)).x1 - (bbox (fmtDate dt)).x0) - 40,
          imgHeight - ((bbox (fmtDate dt)).y1 - (bbox (fmtDate dt)).y0) - 10 - 20,
          fmtDate dt, "white"⟩]) ∧
    (dual = false →
      stampDrawOps bbox imgWidth imgHeight dt fontSize dual =
        [⟨imgWidth - ((bbox (fmtDate dt)).x1 - (bbox (fmtDate dt)).x0) - 40,
          imgHeight - ((bbox (fmtDate dt)).y1 - (bbox (fmtDate dt)).y0) - 10 - 20,
          fmtDate dt, "white"⟩]) ∧
    (∀ opT opD, stampDrawOps bbox imgWidth imgHeight dt fontSize true = [opT, opD] →
      (bbox (fmtDate dt)).y1 - (bbox (fmtDate dt)).y0 <
        (bbox (fmtTime dt)).y1 - (bbox (fmtTime dt)).y0 + fontSize + 10 →
      opT.y < opD.y ∧ opT.text = fmtTime dt ∧ opD.text = fmtDate dt) := by
  refine ⟨?_, ?_, ?_, ?_, ?_⟩
  · cases dual <;> simp [stampDrawOps, add_timestamp_with_pillow]
  · intro op hop
    cases dual
    · simp [stampDrawOps, add_timestamp_with_pillow, get_text_position] at hop
      subst hop
      exact ⟨rfl, rfl⟩
    · simp [stampDrawOps, add_timestamp_with_pillow, get_text_position] at hop
      rcases hop with h | h <;> (subst h; exact ⟨rfl, rfl⟩)
  · intro hd; subst hd
    simp [stampDrawOps, add_timestamp_with_pillow, get_text_position]
  · intro hd; subst hd
    simp [stampDrawOps, add_timestamp_with_pillow, get_text_position]
  · intro opT opD heq hh
    simp [stampDrawOps, add_timestamp_with_pillow, get_text_position] at heq
    rcases heq with ⟨hT, hD⟩
    subst hT; subst hD
    refine ⟨by dsimp; omega, rfl, rfl⟩

/-- **C3** witness: a concrete dual-stamp rendering, with the time line
above the date line. -/
theorem C3_witness :
    stampDrawOps (fun _ => ⟨0, 0, 100, 30⟩) 4000 3000 ⟨2023, 1, 5, 10, 20, 30⟩
        48 true =
      [⟨3860, 2882, "10:20:30", "white"⟩, ⟨3860, 2940, "2023-01-05", "white"⟩] ∧
    (2882 : Int) < 2940 := by
  have h := C3_overlay_layout (fun _ => ⟨0, 0, 100, 30⟩) 4000 3000
    ⟨2023, 1, 5, 10, 20, 30⟩ 48 true
  constructor
  · rw [h.2.2.1 rfl]; decide
  · exact (h.2.2.2.2 ⟨3860, 2882, "10:20:30", "white"⟩
      ⟨3860, 2940, "2023-01-05", "white"⟩ (by rw [h.2.2.1 rfl]; decide)
      (by decide)).1

/-- **C4**: each video-creation run invokes the encoder exactly once, with
exactly the literal ffmpeg argument list — the selected FPS after
`-framerate`, the selected CRF after `-crf`, codec `libx264`, preset
`slow`, pixel format `yuv420p` and the overwrite flag `-y` — and the
UI's three CRF choices select 17/10/6 and its FPS choices 15/30. -/
theorem C4_encoder_arguments (imageFolder : String) (imageFiles : List String)
    (crf fps outputDir tempDir nowStamp : String) (rc : Int) (st : String) :
    (create_video_with_ffmpeg imageFolder imageFiles crf fps outputDir tempDir
        nowStamp rc st).invocations =
      [["ffmpeg", "-framerate", fps, "-i", tempDir ++ "/image-%04d.jpg",
        "-c:v", "libx264", "-preset", "slow", "-crf", crf,
        "-pix_fmt", "yuv420p", "-y",
        outputDir ++ "/" ++
          ("video_" ++ nowStamp ++ "_crf" ++ crf ++ "_fps" ++ fps ++ ".mp4")]] ∧
    (create_video_with_ffmpeg imageFolder imageFiles crf fps outputDir tempDir
        nowStamp rc st).invocations.length = 1 ∧
    crfFromText (crfDropdownItems.getD 0 "") = "17" ∧
    crfFromText (crfDropdownItems.getD 1 "") = "10" ∧
    crfFromText (crfDropdownItems.getD 2 "") = "6" ∧
    fpsDropdownItems.getD 0 "" = "15" ∧ fpsDropdownItems.getD 1 "" = "30" := by
  refine ⟨rfl, rfl, by decide, by decide, by decide, rfl, rfl⟩

theorem enumFrom_map_fst {α β : Type} (h : Nat → β) (l : List α) :
    ∀ i, (l.enumFrom i).map (fun p => h p.1) = (List.range' i l.length).map h := by
  induction l with
  | nil => intro i; simp
  | cons a l ih => intro i; simp [List.enumFrom, List.range', ih]

/-- **C5**: a video run over a non-empty stamped set takes the files in
sorted filename order (Python's code-point order; `sortedStrings` is
sorted and a permutation of the matching files), and the `i`-th of them
(from 0) is copied to `image-` + `i` zero-padded to 4 digits + `.jpg` in
the temporary directory — the gapless sequence the encoder's
`image-%04d.jpg` input pattern consumes. -/
theorem C5_renumbered_copies (destDir : String) (destListing : List String)
    (crfIndex fpsIndex : Nat) (videoOutputDir : String)
    (imageFolder crf fps outputDir tempDir nowStamp : String) (rc : Int)
    (st : String) :
    (sortedStrings (destListing.filter stampedJpgPred) ≠ [] →
      create_video true destDir destListing crfIndex fpsIndex videoOutputDir =
        .workerStarted destDir (sortedStrings (destListing.filter stampedJpgPred))
          (crfFromText (crfDropdownItems.getD crfIndex ""))
          (fpsDropdownItems.getD fpsIndex "") videoOutputDir) ∧
    List.Sorted strLe (sortedStrings (destListing.filter stampedJpgPred)) ∧
    (sortedStrings (destListing.filter stampedJpgPred)).Perm
      (destListing.filter stampedJpgPred) ∧
    (create_video_with_ffmpeg imageFolder
        (sortedStrings (destListing.filter stampedJpgPred)) crf fps outputDir
        tempDir nowStamp rc st).copies =
      (sortedStrings (destListing.filter stampedJpgPred)).enum.map
        (fun p => (imageFolder ++ "/" ++ p.2,
          tempDir ++ "/image-" ++ padTo 4 p.1 ++ ".jpg")) ∧
    (create_video_with_ffmpeg imageFolder
        (sortedStrings (destListing.filter stampedJpgPred)) crf fps outputDir
        tempDir nowStamp rc st).copies.map Prod.snd =
      (List.range (sortedStrings (destListing.filter stampedJpgPred)).length).map
        (fun i => tempDir ++ "/image-" ++ padTo 4 i ++ ".jpg") := by
  refine ⟨?_, ?_, ?_, rfl, ?_⟩
  · intro hne
    simp [create_video, List.isEmpty_iff, hne]
  · exact List.sorted_insertionSort strLe _
  · exact List.perm_insertionSort strLe _
  · rw [create_video_with_ffmpeg]
    simp only [List.map_map]
    have : (Prod.snd ∘ fun p : Nat × String =>
        (imageFolder ++ "/" ++ p.2, tempDir ++ "/image-" ++ padTo 4 p.1 ++ ".jpg")) =
        fun p : Nat × String => tempDir ++ "/image-" ++ padTo 4 p.1 ++ ".jpg" := rfl
    rw [this, List.enum, enumFrom_map_fst
      (fun i => tempDir ++ "/image-" ++ padTo 4 i ++ ".jpg"), List.range_eq_range']

/-- **C5** witness: a concrete run with two stamped files and a stray
file. -/
theorem C5_witness :
    create_video true "dest" ["stamped_b.jpg", "notes.txt", "stamped_a.jpg"]
        0 1 "out" =
      .workerStarted "dest" ["stamped_a.jpg", "stamped_b.jpg"] "17" "30" "out" ∧
    (create_video_with_ffmpeg "dest"
        (sortedStrings (["stamped_b.jpg", "notes.txt", "stamped_a.jpg"].filter
          stampedJpgPred)) "17" "30" "out" "tmp" "NOW" 0 "").copies =
      [("dest" ++ "/" ++ "stamped_a.jpg", "tmp" ++ "/image-0000.jpg"),
       ("dest" ++ "/" ++ "stamped_b.jpg", "tmp" ++ "/image-0001.jpg")] := by
  have h := C5_renumbered_copies "dest" ["stamped_b.jpg", "notes.txt", "stamped_a.jpg"]
    0 1 "out" "dest" "17" "30" "out" "tmp" "NOW" 0 ""
  constructor
  · rw [h.1 (by decide)]; decide
  · rw [h.2.2.2.1]; decide

/-- **C6**: the overlay font size is a fixed 3-way preset of the dropdown
index — 0 (Small) gives 24, 1 (Medium) gives 48, any other index
(Large) gives 72 — and no other size ever occurs. -/
theorem C6_font_size_preset :
    get_font_size 0 = 24 ∧ get_font_size 1 = 48 ∧
    (∀ i : Int, i ≠ 0 → i ≠ 1 → get_font_size i = 72) ∧
    (∀ i : Int, get_font_size i = 24 ∨ get_font_size i = 48 ∨
      get_font_size i = 72) := by
  refine ⟨rfl, rfl, ?_, ?_⟩
  · intro i h0 h1
    simp [get_font_size, h0, h1]
  · intro i
    by_cases h0 : i = 0
    · subst h0; left; rfl
    · by_cases h1 : i = 1
      · subst h1; right; left; rfl
      · right; right; simp [get_font_size, h0, h1]

/-- **C6** witness: index 2 (Large) and Qt's no-selection index −1 both
give 72. -/
theorem C6_witness : get_font_size 2 = 72 ∧ get_font_size (-1) = 72 :=
  ⟨C6_font_size_preset.2.2.1 2 (by decide) (by decide),
   C6_font_size_preset.2.2.1 (-1) (by decide) (by decide)⟩

/-- **C7**: a file whose timestamp resolution returns nothing contributes
no destination file, a "Skipping …" log line, and the run moves on to
the next file in the list. -/
theorem C7_skip_on_missing_timestamp (fromTs : Int → DateTime) (i : Nat)
    (e : FileEntry) (rest : List FileEntry)
    (h : (get_timestamp fromTs e).1 = none) :
    (runStampFrom fromTs i (e :: rest)).written =
      (runStampFrom fromTs (i + 1) rest).written ∧
    ("Skipping " ++ e.name ++ " - could not determine timestamp.") ∈
      (runStampFrom fromTs i (e :: rest)).log ∧
    (runStampFrom fromTs i (e :: rest)).trace =
      .began i :: .skipped i :: (runStampFrom fromTs (i + 1) rest).trace := by
  refine ⟨?_, ?_, ?_⟩ <;> simp [runStampFrom, h]

/-- **C7** witness: a file with no EXIF, no filename pattern and an
unreadable mtime is skipped concretely. -/
theorem C7_witness :
    (runStampFrom constTs 0 [⟨"x.jpg", .noTag, none, true, ""⟩]).written =
      (runStampFrom constTs 1 []).written ∧
    ("Skipping " ++ "x.jpg" ++ " - could not determine timestamp.") ∈
      (runStampFrom constTs 0 [⟨"x.jpg", .noTag, none, true, ""⟩]).log ∧
    (runStampFrom constTs 0 [⟨"x.jpg", .noTag, none, true, ""⟩]).trace =
      .began 0 :: .skipped 0 :: (runStampFrom constTs 1 []).trace :=
  C7_skip_on_missing_timestamp constTs 0 ⟨"x.jpg", .noTag, none, true, ""⟩ []
    (by decide)

/-- **C8**: a stamping run is fully serial and visits each file exactly
once — the event trace is the per-file blocks (begin, then skip or
finish) concatenated in list order, so file `i + 1` begins only after
file `i` was finished or skipped, and the visited indices are
`0, 0, 1, 1, …, n−1, n−1` with no index repeated beyond its own block. -/
theorem C8_serial_exactly_once (fromTs : Int → DateTime)
    (files : List FileEntry) :
    (runStamp fromTs files).trace = specSerialTrace fromTs 0 files ∧
    (runStamp fromTs files).trace.map traceIndex =
      (List.range files.length).flatMap (fun j => [j, j]) := by
  constructor
  · exact runStampFrom_trace fromTs files 0
  · rw [runStamp, runStampFrom_trace, specSerialTrace_map_index,
      List.range_eq_range']

/-- **C9**: the files selected for stamping are exactly those whose
lowercased name ends in `.jpg` and which do not start with `._`; an empty
selection aborts the run with the error dialog, a non-empty one starts
the run on exactly the selection. -/
theorem C9_selected_files (listing : List String) :
    (∀ f, f ∈ listing.filter isSelectedJpg ↔
      f ∈ listing ∧ endsWithChars (lowerChars f.data) ".jpg".data = true ∧
        startsWithChars f.data "._".data = false) ∧
    (listing.filter isSelectedJpg = [] → stamp_jpgs true listing = .noJpgFiles) ∧
    (listing.filter isSelectedJpg ≠ [] →
      stamp_jpgs true listing = .runStarted (listing.filter isSelectedJpg)) := by
  refine ⟨?_, ?_, ?_⟩
  · intro f
    simp [List.mem_filter, isSelectedJpg, and_assoc]
  · intro h
    simp [stamp_jpgs, List.isEmpty_iff, h]
  · intro h
    simp [stamp_jpgs, List.isEmpty_iff, h]

/-- **C9** witness: uppercase `.JPG` is selected, a resource-fork file and
a non-JPG are not, and the run starts on the selection. -/
theorem C9_witness :
    stamp_jpgs true ["a.JPG", "._b.jpg", "c.png"] = .runStarted ["a.JPG"] := by
  have h := (C9_selected_files ["a.JPG", "._b.jpg", "c.png"]).2.2 (by decide)
  rw [h]; decide

theorem deleteLoop_spec (removeErr : String → Option String)
    (l : List String) :
    (deleteLoop removeErr l).removed =
      l.filter (fun f => stampedJpgPred f && (removeErr f).isNone) ∧
    (deleteLoop removeErr l).errorCount =
      (l.filter (fun f => stampedJpgPred f && (removeErr f).isSome)).length ∧
    (deleteLoop removeErr l).deletedCount =
      (l.filter (fun f => stampedJpgPred f && (removeErr f).isNone)).length := by
  induction l with
  | nil => exact ⟨rfl, rfl, rfl⟩
  | cons f rest ih =>
    simp only [deleteLoop, List.filter_cons]
    cases hp : stampedJpgPred f
    · simpa [hp] using ih
    · cases hr : removeErr f <;>
        simp [hp, hr, ih.1, ih.2.1, ih.2.2]

/-- **C10**: deleting stamped images removes exactly the destination files
that start with `stamped_` and whose lowercased name ends in `.jpg` and
whose removal does not fail; nothing else — in particular no file whose
lowercased name lacks the `.jpg` suffix, such as the MP4 — is ever
removed, and one failing removal does not stop the rest (the removal and
error counts are the exact filter counts, independent of where failures
sit in the listing). -/
theorem C10_delete_scope (listing : List String)
    (removeErr : String → Option String) :
    (delete_stamped_images true listing removeErr).removed =
      listing.filter (fun f => stampedJpgPred f && (removeErr f).isNone) ∧
    (∀ f, stampedJpgPred f = false →
      f ∉ (delete_stamped_images true listing removeErr).removed) ∧
    (∀ f, endsWithChars (lowerChars f.data) ".jpg".data = false →
      f ∉ (delete_stamped_images true listing removeErr).removed) ∧
    (delete_stamped_images true listing removeErr).errorCount =
      (listing.filter (fun f => stampedJpgPred f && (removeErr f).isSome)).length ∧
    (delete_stamped_images true listing removeErr).deletedCount =
      (listing.filter (fun f => stampedJpgPred f && (removeErr f).isNone)).length := by
  have hloop := deleteLoop_spec removeErr listing
  have hrem : (delete_stamped_images true listing removeErr).removed =
      (deleteLoop removeErr listing).removed := rfl
  refine ⟨hrem.trans hloop.1, ?_, ?_, hloop.2.1, hloop.2.2⟩
  · intro f hf hmem
    rw [hrem, hloop.1] at hmem
    have := (List.mem_filter.mp hmem).2
    simp [hf] at this
  · intro f hf hmem
    rw [hrem, hloop.1] at hmem
    have := (List.mem_filter.mp hmem).2
    simp [stampedJpgPred, hf] at this

/-- **C10** witness: the matching files except the one whose removal
fails are deleted; the MP4 and the stray file are untouched. -/
theorem C10_witness :
    (delete_stamped_images true
      ["stamped_a.jpg", "video_x.mp4", "stamped_locked.jpg", "notes.txt",
       "stamped_b.JPG"]
      (fun f => if f = "stamped_locked.jpg" then some "Permission denied"
        else none)).removed = ["stamped_a.jpg", "stamped_b.JPG"] ∧
    "video_x.mp4" ∉ (delete_stamped_images true
      ["stamped_a.jpg", "video_x.mp4", "stamped_locked.jpg", "notes.txt",
       "stamped_b.JPG"]
      (fun f => if f = "stamped_locked.jpg" then some "Permission denied"
        else none)).removed := by
  have h := C10_delete_scope
    ["stamped_a.jpg", "video_x.mp4", "stamped_locked.jpg", "notes.txt",
     "stamped_b.JPG"]
    (fun f => if f = "stamped_locked.jpg" then some "Permission denied"
      else none)
  constructor
  · rw [h.1]; decide
  · exact h.2.2.1 "video_x.mp4" (by decide)

end JPG3
